import Mathlib

/-!
Verification development for the ACME certificate client of the
`domain-server` component (`DomainServerAcmeClient.cpp`).

The C++ code is shallowly embedded: the on-disk state touched by the
client is a small file-system model (path contents, per-path read and
write failures, and an owner-only permission set), the hierarchical
status document is a record mirroring the nlohmann JSON tree that the
code mutates, and each stage of the asynchronous ACME continuation
chain is represented by its outcome, so that one total function runs a
whole cycle and reports which continuation fired and which timer was
armed.  Time points and durations are integers (seconds since epoch).
-/

namespace DomainServerAcme

/-! ## File-system model

`contents` associates a path with the bytes of the file at that path;
a path that is absent from `contents` does not exist.  `unwritable`
lists paths where opening for writing fails, `unreadable` lists
existing paths where opening for reading fails, and `ownerOnly` lists
the paths whose permissions have been restricted to owner read/write.
-/

structure FileSystem where
  contents : List (String × String)
  unwritable : List String
  unreadable : List String
  ownerOnly : List String
deriving DecidableEq

/-- Look a path up in an association list of file contents. -/
def contentsFind (l : List (String × String)) (p : String) : Option String :=
  (l.find? (fun e => e.fst == p)).map (fun e => e.snd)

/-- Replace or create the entry for path `p`. -/
def fsSet (l : List (String × String)) (p : String) (data : String) :
    List (String × String) :=
  (p, data) :: l.filter (fun e => !(e.fst == p))

/-- Remove every occurrence of `p` from a path list. -/
def listRemove (l : List String) (p : String) : List String :=
  l.filter (fun q => !(q == p))

/-- The contents of the file at `p`, if it exists. -/
def fsGet (fs : FileSystem) (p : String) : Option String :=
  contentsFind fs.contents p

/-- Embedding of `QFile::exists`. -/
def fsExists (fs : FileSystem) (p : String) : Bool :=
  (fsGet fs p).isSome

/-- Embedding of `readAll` (lines 34-41): open the file read-only and
return all bytes; a missing or unreadable file yields the empty
string. -/
def readAll (p : String) (fs : FileSystem) : String :=
  if fs.unreadable.contains p then "" else (fsGet fs p).getD ""

/-- Embedding of `writeAll` (lines 43-48): open the file write-only
(truncating or creating) and write `data`; returns whether the write
succeeded together with the updated file system.  No permissions are
touched. -/
def writeAll (data : String) (p : String) (fs : FileSystem) : Bool × FileSystem :=
  if fs.unwritable.contains p then (false, fs)
  else
    (true,
     { fs with
        contents := fsSet fs.contents p data,
        unreadable := listRemove fs.unreadable p })

/-- Embedding of `createAccountKey` (lines 213-221): open write-only,
restrict permissions to owner read/write, and write a freshly
generated private key (`keyPem` stands for the PEM produced by
`acme_lw::makePrivateKey`). -/
def createAccountKey (p : String) (keyPem : String) (fs : FileSystem) :
    Bool × FileSystem :=
  if fs.unwritable.contains p then (false, fs)
  else
    (true,
     { fs with
        contents := fsSet fs.contents p keyPem,
        unreadable := listRemove fs.unreadable p,
        ownerOnly := if fs.ownerOnly.contains p then fs.ownerOnly else p :: fs.ownerOnly })

/-- `CertificatePaths` from the header: resolved cert, key and CA
bundle paths. -/
structure CertificatePaths where
  cert : String
  key : String
  trustedAuthorities : String
deriving DecidableEq

/-- `acme_lw::Certificate`: the full chain and the private key. -/
structure Certificate where
  fullchain : String
  privkey : String
deriving DecidableEq

/-- Embedding of `readCertificate` (lines 223-228). -/
def readCertificate (files : CertificatePaths) (fs : FileSystem) : Certificate :=
  { fullchain := readAll files.cert fs,
    privkey := readAll files.key fs }

/-- Embedding of `writeCertificate` (lines 230-233):
`writeAll(fullchain, cert) && writeAll(privkey, key)` with C++
short-circuit evaluation. -/
def writeCertificate (cert : Certificate) (files : CertificatePaths) (fs : FileSystem) :
    Bool × FileSystem :=
  let r1 := writeAll cert.fullchain files.cert fs
  if r1.fst then writeAll cert.privkey files.key r1.snd
  else (false, r1.snd)

/-! ## Status model

The client keeps a nlohmann JSON document

`{directory: {status, error?}, account: {status, error?},
  certificate: {status, error?, expiry?, renewal?}}`.

We embed it as a record; `setError` mirrors the two `setError`
overloads (lines 288-300). -/

structure ErrorInfo where
  type : String
  data : Option (List (String × String))
deriving DecidableEq

structure StageStatus where
  status : String
  error : Option ErrorInfo
deriving DecidableEq

structure CertStatus where
  status : String
  error : Option ErrorInfo
  expiry : Option Int
  renewal : Option Int
deriving DecidableEq

structure StatusModel where
  directory : StageStatus
  account : StageStatus
  certificate : CertStatus
deriving DecidableEq

/-- `setError(json, type)` (lines 288-294). -/
def setError (type : String) (j : StageStatus) : StageStatus :=
  { j with status := "error", error := some { type := type, data := none } }

/-- `setError(json, type, data)` (lines 296-300). -/
def setErrorData (type : String) (d : List (String × String)) (j : StageStatus) :
    StageStatus :=
  { j with status := "error", error := some { type := type, data := some d } }

/-- `setError(json, type)` applied to the certificate stage object. -/
def setCertError (type : String) (j : CertStatus) : CertStatus :=
  { j with status := "error", error := some { type := type, data := none } }

/-- `setError(json, type, data)` applied to the certificate stage object. -/
def setCertErrorData (type : String) (d : List (String × String)) (j : CertStatus) :
    CertStatus :=
  { j with status := "error", error := some { type := type, data := some d } }

/-- The fresh status document assigned at the top of `init()`
(lines 304-315): every stage is `unknown` with no other field. -/
def freshStatus : StatusModel :=
  { directory := { status := "unknown", error := none },
    account := { status := "unknown", error := none },
    certificate := { status := "unknown", error := none, expiry := none, renewal := none } }

/-! ## nlohmann JSON values and the `POST /acme/update` gate

`handleAuthenticatedHTTPRequest` (lines 677-688) evaluates
`status["directory"] != "pending"` (and likewise for the other two
stages).  `status["directory"]` is the stage *object*, so the nlohmann
comparison is between a JSON object and a JSON string; values of
different JSON types always compare unequal. -/

inductive Json where
  | str (s : String)
  | num (n : Int)
  | obj (fields : List (String × Json))

/-- nlohmann `operator!=` between a JSON value and a string literal:
true unless the value is a string with the same characters. -/
def jsonNeStr (j : Json) (s : String) : Bool :=
  match j with
  | Json.str t => !(t == s)
  | Json.num _ => true
  | Json.obj _ => true

/-- The JSON object for an error record (keys in nlohmann map order:
`data` before `type`). -/
def errorToJson (e : ErrorInfo) : Json :=
  Json.obj
    ((match e.data with
      | none => []
      | some d => [("data", Json.obj (d.map (fun kv => (kv.fst, Json.str kv.snd))))]) ++
     [("type", Json.str e.type)])

/-- The JSON object a non-certificate stage dumps to (keys `error`,
`status`). -/
def StageStatus.toJson (j : StageStatus) : Json :=
  Json.obj
    ((match j.error with
      | none => []
      | some e => [("error", errorToJson e)]) ++
     [("status", Json.str j.status)])

/-- The JSON object the certificate stage dumps to (keys `error`,
`expiry`, `renewal`, `status`). -/
def CertStatus.toJson (j : CertStatus) : Json :=
  Json.obj
    ((match j.error with
      | none => []
      | some e => [("error", errorToJson e)]) ++
     (match j.expiry with
      | none => []
      | some n => [("expiry", Json.num n)]) ++
     (match j.renewal with
      | none => []
      | some n => [("renewal", Json.num n)]) ++
     [("status", Json.str j.status)])

/-- Embedding of the `POST /acme/update` branch of
`handleAuthenticatedHTTPRequest` (lines 677-688): the code compares
each stage object (not its `status` field) against the string
`"pending"`.  Returns the HTTP status code and whether `init()` is
invoked. -/
def updatePostResponse (st : StatusModel) : Nat × Bool :=
  if jsonNeStr st.directory.toJson "pending" &&
     jsonNeStr st.account.toJson "pending" &&
     jsonNeStr st.certificate.toJson "pending" then
    (200, true)
  else
    (409, false)

/-- What the specification means by a pending stage: one of the three
`status` fields holds `"pending"`. -/
def anyPending (st : StatusModel) : Bool :=
  (st.directory.status == "pending") ||
  (st.account.status == "pending") ||
  (st.certificate.status == "pending")

/-! ## `init()` (lines 302-342) -/

inductive InitAction where
  | disabled
  | checkExpiry
  | generateCertificate
  | halt
deriving DecidableEq

/-- Embedding of `DomainServerAcmeClient::init` (lines 302-342): reset
the status document, honor the enable switch, then branch on which of
the two certificate files exist.  `std::stable_partition` over
`{cert, key}` with the existence predicate is modelled by the two
stable filters; in the mixed case the first missing path and the first
existing path feed the `missing` error. -/
def init (enabled : Bool) (paths : CertificatePaths) (fs : FileSystem) :
    StatusModel × InitAction :=
  let st := freshStatus
  if !enabled then (st, InitAction.disabled)
  else
    let existing := [paths.cert, paths.key].filter (fun p => fsExists fs p)
    let missingL := [paths.cert, paths.key].filter (fun p => !(fsExists fs p))
    if missingL.isEmpty then (st, InitAction.checkExpiry)
    else if existing.isEmpty then (st, InitAction.generateCertificate)
    else
      ({ st with
          certificate :=
            setCertErrorData "missing"
              [("missing", missingL.headD ""), ("present", existing.headD "")]
              st.certificate },
       InitAction.halt)

/-! ## Renewal scheduling (lines 344-346, 629-649) -/

/-- Embedding of `remainingTime` (lines 344-346):
`(expiryTime - now) * 2 / 3` with C++ integer division (truncation
toward zero). -/
def remainingTime (now expiry : Int) : Int :=
  Int.tdiv ((expiry - now) * 2) 3

/-- Embedding of `scheduleRenewalIn` (lines 643-649): restart the
single-shot timer for `d` and record `certificate.renewal = now + d`. -/
def scheduleRenewalIn (now d : Int) (st : StatusModel) : StatusModel :=
  { st with certificate := { st.certificate with renewal := some (now + d) } }

inductive RenewalAction where
  | scheduleIn (d : Int)
  | generateNow
deriving DecidableEq

/-- Embedding of `handleRenewal` (lines 629-641): record
`certificate.status = ok` and the expiry, then either arm the timer
for the remaining time or regenerate immediately. -/
def handleRenewal (now expiry : Int) (st : StatusModel) : StatusModel × RenewalAction :=
  let st1 := { st with certificate := { st.certificate with status := "ok", expiry := some expiry } }
  let remaining := remainingTime now expiry
  if 0 < remaining then (scheduleRenewalIn now remaining st1, RenewalAction.scheduleIn remaining)
  else (st1, RenewalAction.generateNow)

/-! ## The `generateCertificate` cycle (lines 533-598)

The asynchronous continuation chain is embedded by describing the
outcome of each network stage up front (`AcmeNet`) and running the
chain as one total function.  `terminal` records the `success` flag
the terminal continuation (lines 588-595) was invoked with, `none`
when it never fired; `timer` records which timer was armed. -/

inductive AccountKeyOutcome where
  | writeFail
  | readFail
  | loaded (key : String)
deriving DecidableEq

/-- Whether the account-key load stage produced a key. -/
def AccountKeyOutcome.isLoaded : AccountKeyOutcome → Bool
  | AccountKeyOutcome.loaded _ => true
  | _ => false

/-- Embedding of the account-key stage of `generateCertificate`
(lines 535-557): if the file at `p` does not exist, create it via
`createAccountKey`; then open it read-only and read the key. -/
def accountKeyStage (p keyPem : String) (fs : FileSystem) :
    AccountKeyOutcome × FileSystem :=
  if fsExists fs p then
    if fs.unreadable.contains p then (AccountKeyOutcome.readFail, fs)
    else (AccountKeyOutcome.loaded (readAll p fs), fs)
  else
    let r := createAccountKey p keyPem fs
    if r.fst then
      if r.snd.unreadable.contains p then (AccountKeyOutcome.readFail, r.snd)
      else (AccountKeyOutcome.loaded (readAll p r.snd), r.snd)
    else (AccountKeyOutcome.writeFail, r.snd)

deriving instance DecidableEq for Except

/-- Outcome of each network stage of one cycle: the directory fetch,
account creation, certificate order, and the retrieval that the
post-self-check continuation performs.  A successful retrieval carries
the downloaded certificate and its parsed expiry. -/
structure AcmeNet where
  directory : Except String Unit
  account : Except String Unit
  order : Except String Unit
  retrieve : Except String (Certificate × Int)
deriving DecidableEq

inductive TimerAction where
  | noTimer
  | renewalIn (d : Int)
  | regenerateNow
deriving DecidableEq

structure CycleResult where
  status : StatusModel
  fs : FileSystem
  terminal : Option Bool
  timer : TimerAction
  emitted : Bool
deriving DecidableEq

/-- The fixed retry interval, `24h` in seconds. -/
def retryInterval : Int := 86400

/-- The failure branch of the terminal continuation (lines 592-594):
`scheduleRenewalIn(24h)` after the stage error has been recorded. -/
def failCycle (now : Int) (st : StatusModel) (fs : FileSystem) : CycleResult :=
  { status := scheduleRenewalIn now retryInterval st,
    fs := fs,
    terminal := some false,
    timer := TimerAction.renewalIn retryInterval,
    emitted := false }

/-- Embedding of `DomainServerAcmeClient::generateCertificate`
(lines 533-598) together with the callback chain it builds
(`AccountCallback`, `OrderCallback`, `CertificateCallback`, lines
358-531) and the terminal continuation (lines 588-595).

The account-key load stage records `account.error` of type
`key-write` or `key-read` and returns; the network stages record an
`acme` error under the stage that was pending and invoke the terminal
continuation with `success = false`; a failed certificate write
records a `write` error and also reaches the terminal continuation
with `success = false`.  On success the client emits
`certificateUpdated` and runs `handleRenewal`. -/
def generateCertificate (now : Int) (keyPath keyPem : String)
    (paths : CertificatePaths) (net : AcmeNet) (st : StatusModel) (fs : FileSystem) :
    CycleResult :=
  match accountKeyStage keyPath keyPem fs with
  | (AccountKeyOutcome.writeFail, fs1) =>
      { status := { st with account := setError "key-write" st.account },
        fs := fs1, terminal := none, timer := TimerAction.noTimer, emitted := false }
  | (AccountKeyOutcome.readFail, fs1) =>
      { status := { st with account := setError "key-read" st.account },
        fs := fs1, terminal := none, timer := TimerAction.noTimer, emitted := false }
  | (AccountKeyOutcome.loaded _, fs1) =>
    let st1 := { st with directory := { st.directory with status := "pending" } }
    match net.directory with
    | Except.error msg =>
        failCycle now
          { st1 with directory := setErrorData "acme" [("message", msg)] st1.directory }
          fs1
    | Except.ok _ =>
      let st2 :=
        { st1 with
            directory := { st1.directory with status := "ok" },
            account := { st1.account with status := "pending" } }
      match net.account with
      | Except.error msg =>
          failCycle now
            { st2 with account := setErrorData "acme" [("message", msg)] st2.account }
            fs1
      | Except.ok _ =>
        let st3 :=
          { st2 with
              account := { st2.account with status := "ok" },
              certificate := { st2.certificate with status := "pending" } }
        match net.order with
        | Except.error msg =>
            failCycle now
              { st3 with
                  certificate := setCertErrorData "acme" [("message", msg)] st3.certificate }
              fs1
        | Except.ok _ =>
          match net.retrieve with
          | Except.error msg =>
              failCycle now
                { st3 with
                    certificate := setCertErrorData "acme" [("message", msg)] st3.certificate }
                fs1
          | Except.ok (cert, certExpiry) =>
            let w := writeCertificate cert paths fs1
            if w.fst then
              let hr := handleRenewal now certExpiry st3
              { status := hr.fst,
                fs := w.snd,
                terminal := some true,
                timer :=
                  (match hr.snd with
                   | RenewalAction.scheduleIn d => TimerAction.renewalIn d
                   | RenewalAction.generateNow => TimerAction.regenerateNow),
                emitted := true }
            else
              failCycle now
                { st3 with
                    certificate :=
                      setCertErrorData "write"
                        [("message", "Failed to write certificate files.")]
                        st3.certificate }
                w.snd

/-- Whether some step of the cycle after a successful account-key load
fails: a network stage errors, or the downloaded certificate cannot be
written.  `fs1` is the file system after the account-key stage. -/
def anyAcmeStepFails (net : AcmeNet) (paths : CertificatePaths) (fs1 : FileSystem) : Bool :=
  match net.directory with
  | Except.error _ => true
  | Except.ok _ =>
    match net.account with
    | Except.error _ => true
    | Except.ok _ =>
      match net.order with
      | Except.error _ => true
      | Except.ok _ =>
        match net.retrieve with
        | Except.error _ => true
        | Except.ok (cert, _) => !(writeCertificate cert paths fs1).fst

/-! ## The periodic external-update check (lines 267-283) -/

/-- Embedding of the `updateCheckTimer` tick: if both certificate
files exist and read as non-empty, parse the expiry from the chain
(`getExpiryOrError`, modelled by the `parseExpiry` parameter); if the
parse succeeds and the new expiry is strictly later than the stored
one, emit `certificateUpdated` and adopt the new expiry.  Returns
(signal emitted, stored expiry afterwards). -/
def updateCheckTick (paths : CertificatePaths) (parseExpiry : String → Option Int)
    (storedExpiry : Int) (fs : FileSystem) : Bool × Int :=
  if fsExists fs paths.cert && fsExists fs paths.key then
    let cert := readCertificate paths fs
    if !(cert.fullchain == "") && !(cert.privkey == "") then
      match parseExpiry cert.fullchain with
      | some v => if storedExpiry < v then (true, v) else (false, storedExpiry)
      | none => (false, storedExpiry)
    else (false, storedExpiry)
  else (false, storedExpiry)

/-! ## The server-variant challenge handler (lines 51-90) -/

structure ServerChallenge where
  url : String
  content : String
deriving DecidableEq

structure HttpResponse where
  code : Nat
  body : String
  contentType : Option String
deriving DecidableEq

/-- The diagnostic body built by the 404 branch of
`AcmeHttpChallengeServer::handleHTTPRequest` (lines 77-82). -/
def challengeDiagnostic (challenges : List ServerChallenge) (url : String) : String :=
  "Resource not found. Url is " ++ url ++ " but expected any of\n" ++
    String.join (challenges.map (fun ch => ch.url ++ "\n"))

/-- Embedding of `AcmeHttpChallengeServer::handleHTTPRequest`
(lines 72-85): find the first published challenge whose URL matches;
on a match respond 200 with `application/octet-stream` and the
challenge content, otherwise respond 404 with the diagnostic body.
A `contentType` of `none` stands for the default content type of
`HTTPConnection::respond`. -/
def handleHTTPRequest (challenges : List ServerChallenge) (url : String) : HttpResponse :=
  match challenges.find? (fun ch => ch.url == url) with
  | some ch =>
      { code := 200, body := ch.content, contentType := some "application/octet-stream" }
  | none =>
      { code := 404, body := challengeDiagnostic challenges url, contentType := none }

/-! ## `makeChallengeHandler` (lines 148-164) -/

structure ChallengeHandlerParams where
  typeId : String
  domainDirs : List (String × String)
deriving DecidableEq

inductive ChallengeHandlerKind where
  | server
  | files (dirs : List (String × String))
  | manual
deriving DecidableEq

/-- Embedding of `makeChallengeHandler` (lines 153-164): dispatch on
the type id, throwing `std::logic_error` (modelled as `Except.error`)
for any other id. -/
def makeChallengeHandler (params : ChallengeHandlerParams) :
    Except String ChallengeHandlerKind :=
  if params.typeId == "server" then Except.ok ChallengeHandlerKind.server
  else if params.typeId == "files" then Except.ok (ChallengeHandlerKind.files params.domainDirs)
  else if params.typeId == "manual" then Except.ok ChallengeHandlerKind.manual
  else Except.error ("Invalid ACME HTTP challenge handler type id: " ++ params.typeId)

/-! ## Concrete inputs used by witnesses and counterexamples -/

/-- The empty file system. -/
def fsEmpty : FileSystem :=
  { contents := [], unwritable := [], unreadable := [], ownerOnly := [] }

/-- Distinct cert, key and CA paths. -/
def somePaths : CertificatePaths :=
  { cert := "c", key := "k", trustedAuthorities := "t" }

/-- A status document with the directory stage pending, as it is
while a cycle is fetching the ACME directory. -/
def c1PendingStatus : StatusModel :=
  { freshStatus with directory := { status := "pending", error := none } }

/-! ## C1: the `POST /acme/update` pending gate -/

/-- The `409` branch of `POST /acme/update` is unreachable: each stage
entry of the status document is a JSON object, and nlohmann compares a
JSON object to the string `"pending"` as unequal regardless of the
`status` field, so the handler always answers `200` and calls
`init()`. -/
theorem updatePostResponse_const (st : StatusModel) :
    updatePostResponse st = (200, true) := by
  simp [updatePostResponse, StageStatus.toJson, CertStatus.toJson, jsonNeStr]

/-- C1: the claim says a `POST /acme/update` returns `409` when a
stage is `pending`; on the status document whose directory stage is
`pending` the code instead responds `200` and invokes `init()`,
because it compares the stage object rather than its `status` field
against `"pending"`. -/
theorem updatePost_ok_despite_pending :
    anyPending c1PendingStatus = true ∧
    updatePostResponse c1PendingStatus = (200, true) := by
  decide

/-! ## C4: the three-way branch of `init()` -/

/-- C4: with the client enabled, `init()` branches on the on-disk
state in exactly three ways: both files present delegates to
`checkExpiry`, neither present starts `generateCertificate`, and
exactly one present records `certificate.error = {type: "missing",
data: {missing, present}}` and halts, with no renewal scheduled
(`certificate.renewal` stays unset) and no cycle started. -/
theorem init_branches (paths : CertificatePaths) (fs : FileSystem) :
    init true paths fs =
      if fsExists fs paths.cert then
        if fsExists fs paths.key then (freshStatus, InitAction.checkExpiry)
        else
          ({ freshStatus with
              certificate :=
                setCertErrorData "missing"
                  [("missing", paths.key), ("present", paths.cert)]
                  freshStatus.certificate },
           InitAction.halt)
      else
        if fsExists fs paths.key then
          ({ freshStatus with
              certificate :=
                setCertErrorData "missing"
                  [("missing", paths.cert), ("present", paths.key)]
                  freshStatus.certificate },
           InitAction.halt)
        else (freshStatus, InitAction.generateCertificate)
    := by
  cases h1 : fsExists fs paths.cert <;> cases h2 : fsExists fs paths.key <;>
    simp [init, h1, h2]

/-- A file system where only the cert file exists. -/
def c4Fs : FileSystem :=
  { contents := [("c", "PEM")], unwritable := [], unreadable := [], ownerOnly := [] }

/-- C4 witness: with the cert file present and the key file absent,
`init()` halts with the `missing` error naming the absent key path
and the present cert path. -/
theorem init_branches_witness :
    (init true somePaths c4Fs).snd = InitAction.halt ∧
    (init true somePaths c4Fs).fst.certificate.error =
      some { type := "missing",
             data := some [("missing", "k"), ("present", "c")] } ∧
    (init true somePaths c4Fs).fst.certificate.renewal = none := by
  rw [init_branches somePaths c4Fs]
  decide

/-! ## C5: `remainingTime` and `handleRenewal` -/

/-- C5: `remainingTime` is `(expiry - now) * 2 / 3` with C++ integer
division, and `handleRenewal` sets `certificate.status = ok` and
`certificate.expiry = expiry`, then arms the renewal timer for the
remaining time exactly when it is strictly positive and otherwise
regenerates immediately with no timer wait. -/
theorem remainingTime_handleRenewal_spec (now expiry : Int) (st : StatusModel) :
    remainingTime now expiry = Int.tdiv ((expiry - now) * 2) 3 ∧
    (handleRenewal now expiry st).fst.certificate.status = "ok" ∧
    (handleRenewal now expiry st).fst.certificate.expiry = some expiry ∧
    (handleRenewal now expiry st).snd =
      (if 0 < remainingTime now expiry then
        RenewalAction.scheduleIn (remainingTime now expiry)
       else RenewalAction.generateNow) := by
  refine ⟨rfl, ?_⟩
  unfold handleRenewal
  by_cases h : 0 < remainingTime now expiry <;> simp [h, scheduleRenewalIn]

/-- C5 witness: with `now = 0` and `expiry = 300`, two thirds of the
remaining lifetime is 200, so the timer is armed for 200. -/
theorem remainingTime_handleRenewal_spec_witness :
    (handleRenewal 0 300 freshStatus).snd = RenewalAction.scheduleIn 200 := by
  rw [(remainingTime_handleRenewal_spec 0 300 freshStatus).2.2.2]
  decide

/-! ## C2: failure handling in the `generateCertificate` cycle -/

/-- A file system on which creating the account key at `"ak"` fails. -/
def c2Fs : FileSystem :=
  { contents := [], unwritable := ["ak"], unreadable := [], ownerOnly := [] }

/-- Network stage outcomes where every network stage would succeed. -/
def c2NetAllOk : AcmeNet :=
  { directory := Except.ok (),
    account := Except.ok (),
    order := Except.ok (),
    retrieve := Except.ok ({ fullchain := "A", privkey := "B" }, 100) }

/-- Network stage outcomes where the directory fetch fails. -/
def c2NetDirFail : AcmeNet :=
  { directory := Except.error "boom",
    account := Except.ok (),
    order := Except.ok (),
    retrieve := Except.ok ({ fullchain := "A", privkey := "B" }, 100) }

/-- C2 counterexample: when writing the account key fails, the cycle
records `account.error` of type `key-write` and returns; the terminal
continuation is never invoked and no 24-hour retry timer is armed,
contradicting the claim that every failing step, the account-key load
stage included, reaches the terminal continuation and re-arms the
timer. -/
theorem generateCertificate_keyWrite_counterexample :
    (generateCertificate 0 "ak" "PEM" somePaths c2NetAllOk freshStatus c2Fs).terminal = none ∧
    (generateCertificate 0 "ak" "PEM" somePaths c2NetAllOk freshStatus c2Fs).timer =
      TimerAction.noTimer ∧
    (generateCertificate 0 "ak" "PEM" somePaths c2NetAllOk freshStatus c2Fs).status.account.error =
      some { type := "key-write", data := none } := by
  decide

/-- C2 (amended): account-key load failures record `account.error` of
type `key-write` (write failure) or `key-read` (read failure) and
return without invoking the terminal continuation and without arming
any timer; every later failing step — directory, account, order,
retrieval, or writing the downloaded certificate — reaches the
terminal continuation with `success = false`, which re-arms the
renewal timer for the fixed 24-hour retry interval. -/
theorem generateCertificate_failure_handling (now : Int) (keyPath keyPem : String)
    (paths : CertificatePaths) (net : AcmeNet) (st : StatusModel) (fs : FileSystem) :
    ((accountKeyStage keyPath keyPem fs).fst = AccountKeyOutcome.writeFail →
      (generateCertificate now keyPath keyPem paths net st fs).terminal = none ∧
      (generateCertificate now keyPath keyPem paths net st fs).timer = TimerAction.noTimer ∧
      (generateCertificate now keyPath keyPem paths net st fs).status.account.error =
        some { type := "key-write", data := none }) ∧
    ((accountKeyStage keyPath keyPem fs).fst = AccountKeyOutcome.readFail →
      (generateCertificate now keyPath keyPem paths net st fs).terminal = none ∧
      (generateCertificate now keyPath keyPem paths net st fs).timer = TimerAction.noTimer ∧
      (generateCertificate now keyPath keyPem paths net st fs).status.account.error =
        some { type := "key-read", data := none }) ∧
    ((accountKeyStage keyPath keyPem fs).fst.isLoaded = true →
      anyAcmeStepFails net paths (accountKeyStage keyPath keyPem fs).snd = true →
      (generateCertificate now keyPath keyPem paths net st fs).terminal = some false ∧
      (generateCertificate now keyPath keyPem paths net st fs).timer =
        TimerAction.renewalIn retryInterval) := by
  rcases hak : accountKeyStage keyPath keyPem fs with ⟨o, fs1⟩
  refine ⟨?_, ?_, ?_⟩
  · intro ho
    simp only at ho
    subst ho
    simp [generateCertificate, hak, setError]
  · intro ho
    simp only at ho
    subst ho
    simp [generateCertificate, hak, setError]
  · intro ho hfail
    simp only at ho hfail
    cases o with
    | writeFail => simp [AccountKeyOutcome.isLoaded] at ho
    | readFail => simp [AccountKeyOutcome.isLoaded] at ho
    | loaded k =>
      rcases net with ⟨d, a, or, r⟩
      cases d with
      | error msg => simp [generateCertificate, hak, failCycle]
      | ok u =>
        cases a with
        | error msg => simp [generateCertificate, hak, failCycle]
        | ok u =>
          cases or with
          | error msg => simp [generateCertificate, hak, failCycle]
          | ok u =>
            cases r with
            | error msg => simp [generateCertificate, hak, failCycle]
            | ok cp =>
              rcases cp with ⟨cert, certExpiry⟩
              simp [anyAcmeStepFails] at hfail
              simp [generateCertificate, hak, failCycle, hfail]

/-- C2 witness: on a file system where the account key can be created
and a run whose directory fetch fails, the terminal continuation fires
with `success = false` and the 24-hour retry timer is armed; on the
key-write failure input the cycle stops without either. -/
theorem generateCertificate_failure_handling_witness :
    ((generateCertificate 0 "ak" "PEM" somePaths c2NetDirFail freshStatus fsEmpty).terminal =
        some false ∧
      (generateCertificate 0 "ak" "PEM" somePaths c2NetDirFail freshStatus fsEmpty).timer =
        TimerAction.renewalIn retryInterval) ∧
    ((generateCertificate 0 "ak" "PEM" somePaths c2NetAllOk freshStatus c2Fs).terminal = none ∧
      (generateCertificate 0 "ak" "PEM" somePaths c2NetAllOk freshStatus c2Fs).timer =
        TimerAction.noTimer ∧
      (generateCertificate 0 "ak" "PEM" somePaths c2NetAllOk freshStatus c2Fs).status.account.error =
        some { type := "key-write", data := none }) :=
  ⟨(generateCertificate_failure_handling 0 "ak" "PEM" somePaths c2NetDirFail freshStatus
      fsEmpty).2.2 (by decide) (by decide),
   (generateCertificate_failure_handling 0 "ak" "PEM" somePaths c2NetAllOk freshStatus
      c2Fs).1 (by decide)⟩

/-! ## C3: permissions written by the certificate store -/

/-- The certificate pair used in concrete store runs. -/
def c3Cert : Certificate := { fullchain := "A", privkey := "B" }

/-- C3 counterexample: on the empty file system, `writeCertificate`
succeeds yet the private-key file at `"k"` is *not* restricted to
owner-only permissions — `writeAll` never touches permissions. -/
theorem writeCertificate_no_restriction_counterexample :
    (writeCertificate c3Cert somePaths fsEmpty).fst = true ∧
    (writeCertificate c3Cert somePaths fsEmpty).snd.ownerOnly.contains "k" = false := by
  decide

/-- C3 (amended): `writeCertificate` restricts the permissions of
neither the chain file nor the private-key file (the owner-only set is
unchanged); the owner-only read/write restriction is applied by
`createAccountKey` to the account key file it creates. -/
theorem writeCertificate_permissions (cert : Certificate) (paths : CertificatePaths)
    (fs : FileSystem) :
    (writeCertificate cert paths fs).snd.ownerOnly = fs.ownerOnly ∧
    (∀ p keyPem f, (createAccountKey p keyPem f).fst = true →
      (createAccountKey p keyPem f).snd.ownerOnly.contains p = true) := by
  constructor
  · by_cases h1 : paths.cert ∈ fs.unwritable <;>
      by_cases h2 : paths.key ∈ fs.unwritable <;>
        simp [writeCertificate, writeAll, h1, h2]
  · intro p keyPem f h
    by_cases hw : p ∈ f.unwritable
    · simp [createAccountKey, hw] at h
    · by_cases hc : p ∈ f.ownerOnly <;>
        simp [createAccountKey, hw, hc]

/-- C3 witness: `writeCertificate` on the empty file system leaves the
owner-only set empty, while `createAccountKey` marks the key it wrote
owner-only. -/
theorem writeCertificate_permissions_witness :
    (writeCertificate c3Cert somePaths fsEmpty).snd.ownerOnly = fsEmpty.ownerOnly ∧
    (createAccountKey "ak" "PEM" fsEmpty).snd.ownerOnly.contains "ak" = true :=
  ⟨(writeCertificate_permissions c3Cert somePaths fsEmpty).1,
   (writeCertificate_permissions c3Cert somePaths fsEmpty).2 "ak" "PEM" fsEmpty (by decide)⟩

/-! ## C10: the account-key stage never overwrites an existing key -/

/-- A file system that already holds an account key with restricted
permissions. -/
def c10Fs : FileSystem :=
  { contents := [("ak", "OLDKEY")], unwritable := [], unreadable := [], ownerOnly := ["ak"] }

/-- C10: when the account key file exists at the start of a cycle, the
account-key stage performs no write at all — the file system is
untouched, so in particular the key file contents are unchanged. -/
theorem accountKeyStage_preserves_existing_key (p keyPem : String) (fs : FileSystem)
    (h : fsExists fs p = true) :
    (accountKeyStage p keyPem fs).snd = fs ∧
    fsGet (accountKeyStage p keyPem fs).snd p = fsGet fs p := by
  have hs : (accountKeyStage p keyPem fs).snd = fs := by
    unfold accountKeyStage
    simp only [h, if_true]
    split <;> rfl
  exact ⟨hs, by rw [hs]⟩

/-- C10 witness: with `"ak"` already present holding `"OLDKEY"`, the
account-key stage leaves the file system — and the key contents —
unchanged. -/
theorem accountKeyStage_preserves_existing_key_witness :
    (accountKeyStage "ak" "NEW" c10Fs).snd = c10Fs ∧
    fsGet (accountKeyStage "ak" "NEW" c10Fs).snd "ak" = fsGet c10Fs "ak" :=
  accountKeyStage_preserves_existing_key "ak" "NEW" c10Fs (by decide)

/-! ## C6: store round-trip -/

/-- Filtering out the entries at path `p` does not change a lookup at
a different path `q`. -/
lemma find?_filter_ne (l : List (String × String)) (p q : String) (h : q ≠ p) :
    (l.filter (fun e => !(e.fst == p))).find? (fun e => e.fst == q) =
      l.find? (fun e => e.fst == q) := by
  have hpq : (p == q) = false := by simp [Ne.symm h]
  induction l with
  | nil => rfl
  | cons a as ih =>
    by_cases ha : a.fst = q
    · have hap : (a.fst == p) = false := by simp [ha, h]
      simp [List.filter_cons, hap, List.find?_cons, ha, h]
    · have haq : (a.fst == q) = false := by simp [ha]
      by_cases hap : a.fst = p <;>
        simp [List.filter_cons, hap, haq, List.find?_cons, ih, hpq]

/-- A lookup at the path just written finds the written data. -/
lemma contentsFind_fsSet_self (l : List (String × String)) (p d : String) :
    contentsFind (fsSet l p d) p = some d := by
  simp [contentsFind, fsSet, List.find?_cons]

/-- A lookup at a different path is unaffected by a write. -/
lemma contentsFind_fsSet_ne (l : List (String × String)) (p d q : String) (h : q ≠ p) :
    contentsFind (fsSet l p d) q = contentsFind l q := by
  have hpq : (p == q) = false := by simp [Ne.symm h]
  simp [contentsFind, fsSet, List.find?_cons, hpq, find?_filter_ne l p q h]

/-- Removing a path removes it. -/
lemma not_mem_listRemove_self (l : List String) (p : String) :
    p ∉ listRemove l p := by
  simp [listRemove]

/-- Removing a path leaves other paths alone. -/
lemma mem_listRemove_ne (l : List String) (p q : String) (h : q ≠ p) :
    q ∈ listRemove l p ↔ q ∈ l := by
  simp [listRemove, h]

/-- The paths whose cert and key file coincide. -/
def c6Paths : CertificatePaths :=
  { cert := "p", key := "p", trustedAuthorities := "t" }

/-- C6 counterexample: when the configured cert path and key path are
the same file, `writeCertificate` succeeds (the second write truncates
the first) but reading back yields the private key in both fields, not
the original pair. -/
theorem roundTrip_counterexample :
    (writeCertificate c3Cert c6Paths fsEmpty).fst = true ∧
    readCertificate c6Paths (writeCertificate c3Cert c6Paths fsEmpty).snd ≠ c3Cert := by
  decide

/-- C6 (amended): whenever the cert path and the key path are
distinct, a successful `writeCertificate` followed by
`readCertificate` returns the same `{fullchain, privkey}` pair
byte-for-byte. -/
theorem writeCertificate_readCertificate_roundTrip (cert : Certificate)
    (paths : CertificatePaths) (fs : FileSystem)
    (hne : paths.cert ≠ paths.key)
    (hw : (writeCertificate cert paths fs).fst = true) :
    readCertificate paths (writeCertificate cert paths fs).snd = cert := by
  by_cases h1 : paths.cert ∈ fs.unwritable
  · simp [writeCertificate, writeAll, h1] at hw
  · by_cases h2 : paths.key ∈ fs.unwritable
    · simp [writeCertificate, writeAll, h1, h2] at hw
    · have hres : (writeCertificate cert paths fs).snd =
          { contents := fsSet (fsSet fs.contents paths.cert cert.fullchain) paths.key cert.privkey,
            unwritable := fs.unwritable,
            unreadable := listRemove (listRemove fs.unreadable paths.cert) paths.key,
            ownerOnly := fs.ownerOnly } := by
        simp [writeCertificate, writeAll, h1, h2]
      rw [hres]
      have hcr : paths.cert ∉ listRemove (listRemove fs.unreadable paths.cert) paths.key := by
        rw [mem_listRemove_ne _ _ _ hne]
        exact not_mem_listRemove_self _ _
      have hkr : paths.key ∉ listRemove (listRemove fs.unreadable paths.cert) paths.key :=
        not_mem_listRemove_self _ _
      have hgc : contentsFind
          (fsSet (fsSet fs.contents paths.cert cert.fullchain) paths.key cert.privkey)
          paths.cert = some cert.fullchain := by
        rw [contentsFind_fsSet_ne _ _ _ _ hne]
        exact contentsFind_fsSet_self _ _ _
      have hgk : contentsFind
          (fsSet (fsSet fs.contents paths.cert cert.fullchain) paths.key cert.privkey)
          paths.key = some cert.privkey :=
        contentsFind_fsSet_self _ _ _
      simp [readCertificate, readAll, fsGet, hcr, hkr, hgc, hgk]

/-- C6 witness: on distinct paths the round trip reproduces the
certificate pair. -/
theorem writeCertificate_readCertificate_roundTrip_witness :
    readCertificate somePaths (writeCertificate c3Cert somePaths fsEmpty).snd = c3Cert :=
  writeCertificate_readCertificate_roundTrip c3Cert somePaths fsEmpty (by decide) (by decide)

/-! ## C7: the periodic external-update check -/

/-- C7: the tick emits `certificateUpdated` and adopts a new stored
expiry exactly when both certificate files exist, both read back
non-empty, the expiry parses, and the parsed expiry is strictly
greater than the stored one; on any other tick the stored expiry is
kept. -/
theorem updateCheckTick_spec (paths : CertificatePaths)
    (parseExpiry : String → Option Int) (e : Int) (fs : FileSystem) :
    ((updateCheckTick paths parseExpiry e fs).fst = true ↔
      (fsExists fs paths.cert = true ∧ fsExists fs paths.key = true ∧
       readAll paths.cert fs ≠ "" ∧ readAll paths.key fs ≠ "" ∧
       (∃ v, parseExpiry (readAll paths.cert fs) = some v ∧ e < v))) ∧
    ((updateCheckTick paths parseExpiry e fs).fst = true →
      parseExpiry (readAll paths.cert fs) =
        some (updateCheckTick paths parseExpiry e fs).snd ∧
      e < (updateCheckTick paths parseExpiry e fs).snd) ∧
    ((updateCheckTick paths parseExpiry e fs).fst = false →
      (updateCheckTick paths parseExpiry e fs).snd = e) := by
  by_cases hc : fsExists fs paths.cert
  · by_cases hk : fsExists fs paths.key
    · by_cases hfc : readAll paths.cert fs = ""
      · simp [updateCheckTick, readCertificate, hc, hk, hfc]
      · by_cases hfk : readAll paths.key fs = ""
        · simp [updateCheckTick, readCertificate, hc, hk, hfc, hfk]
        · rcases hp : parseExpiry (readAll paths.cert fs) with _ | v
          · simp [updateCheckTick, readCertificate, hc, hk, hfc, hfk, hp]
          · by_cases he : e < v
            · simp [updateCheckTick, readCertificate, hc, hk, hfc, hfk, hp, he]
            · simp [updateCheckTick, readCertificate, hc, hk, hfc, hfk, hp, he]
    · simp [updateCheckTick, readCertificate, hc, hk]
  · simp [updateCheckTick, readCertificate, hc]

/-- A file system holding both certificate files with non-empty
contents. -/
def c7Fs : FileSystem :=
  { contents := [("c", "CHAIN"), ("k", "KEY")],
    unwritable := [], unreadable := [], ownerOnly := [] }

/-- An expiry parser recognising the chain on disk in `c7Fs`. -/
def parseChain : String → Option Int :=
  fun s => if s == "CHAIN" then some 9 else none

/-- C7 witness: with both files present, non-empty, a parsable expiry
of 9 and a stored expiry of 5, the tick emits the signal and adopts
the new expiry. -/
theorem updateCheckTick_spec_witness :
    (updateCheckTick somePaths parseChain 5 c7Fs).fst = true ∧
    parseChain (readAll somePaths.cert c7Fs) =
      some (updateCheckTick somePaths parseChain 5 c7Fs).snd ∧
    5 < (updateCheckTick somePaths parseChain 5 c7Fs).snd := by
  have h := updateCheckTick_spec somePaths parseChain 5 c7Fs
  have h1 : (updateCheckTick somePaths parseChain 5 c7Fs).fst = true :=
    h.1.mpr ⟨by decide, by decide, by decide, by decide, ⟨9, by decide, by decide⟩⟩
  exact ⟨h1, (h.2.1 h1).1, (h.2.1 h1).2⟩

/-! ## C8: the server-variant challenge HTTP handler -/

/-- C8: the handler answers 200 with content type
`application/octet-stream` and the content of a matching published
challenge when the URL equals a published challenge location, and 404
with the diagnostic body listing every published challenge URL
otherwise. -/
theorem handleHTTPRequest_spec (challenges : List ServerChallenge) (url : String) :
    ((∃ ch ∈ challenges, ch.url = url) →
      ∃ ch, ch ∈ challenges ∧ ch.url = url ∧
        handleHTTPRequest challenges url =
          { code := 200, body := ch.content,
            contentType := some "application/octet-stream" }) ∧
    ((∀ ch ∈ challenges, ch.url ≠ url) →
      handleHTTPRequest challenges url =
        { code := 404, body := challengeDiagnostic challenges url,
          contentType := none }) := by
  constructor
  · intro hex
    rcases hfind : challenges.find? (fun ch => ch.url == url) with _ | ch
    · exfalso
      rcases hex with ⟨ch, hmem, hurl⟩
      exact (List.find?_eq_none.mp hfind ch hmem) (by simp [hurl])
    · refine ⟨ch, List.mem_of_find?_eq_some hfind, ?_, ?_⟩
      · simpa using List.find?_some hfind
      · unfold handleHTTPRequest
        rw [hfind]
  · intro hall
    rcases hfind : challenges.find? (fun ch => ch.url == url) with _ | ch
    · unfold handleHTTPRequest
      rw [hfind]
    · exact absurd (by simpa using List.find?_some hfind)
        (hall ch (List.mem_of_find?_eq_some hfind))

/-- A single published challenge. -/
def c8Challenges : List ServerChallenge :=
  [{ url := "/w/t", content := "KA" }]

/-- C8 witness: a request for the published location gets 200 with
the challenge body; any other URL gets the 404 diagnostic listing. -/
theorem handleHTTPRequest_spec_witness :
    handleHTTPRequest c8Challenges "/w/t" =
      { code := 200, body := "KA", contentType := some "application/octet-stream" } ∧
    handleHTTPRequest c8Challenges "/zz" =
      { code := 404, body := challengeDiagnostic c8Challenges "/zz",
        contentType := none } := by
  constructor
  · obtain ⟨ch, hmem, hurl, heq⟩ :=
      (handleHTTPRequest_spec c8Challenges "/w/t").1
        ⟨{ url := "/w/t", content := "KA" }, by simp [c8Challenges], rfl⟩
    have hch : ch = { url := "/w/t", content := "KA" } := by
      simpa [c8Challenges] using hmem
    rw [hch] at heq
    exact heq
  · exact (handleHTTPRequest_spec c8Challenges "/zz").2 (by decide)

/-! ## C9: invalid challenge handler type ids -/

/-- C9: for any type id other than `server`, `files` or `manual`,
`makeChallengeHandler` throws a `std::logic_error` naming the invalid
id instead of returning a handler, so a misconfigured
`acme.challenge_handler_type` raises rather than silently falling back
to a default handler. -/
theorem makeChallengeHandler_invalid (params : ChallengeHandlerParams)
    (h1 : params.typeId ≠ "server")
    (h2 : params.typeId ≠ "files")
    (h3 : params.typeId ≠ "manual") :
    makeChallengeHandler params =
      Except.error ("Invalid ACME HTTP challenge handler type id: " ++ params.typeId) := by
  simp [makeChallengeHandler, h1, h2, h3]

/-- A misconfigured handler type id. -/
def c9Params : ChallengeHandlerParams := { typeId := "dns", domainDirs := [] }

/-- C9 witness: the type id `dns` is rejected with the diagnostic
naming it. -/
theorem makeChallengeHandler_invalid_witness :
    makeChallengeHandler c9Params =
      Except.error ("Invalid ACME HTTP challenge handler type id: " ++ c9Params.typeId) :=
  makeChallengeHandler_invalid c9Params (by decide) (by decide) (by decide)

end DomainServerAcme
